import Mathlib

/-!
# Verification of the aicommit commit-message tool

Shallow embedding of the repository's source:
* `src/ollama.ts` — `getLocalModels`, `generateCommitMessage` (embedded from the source);
* `src/prompts.ts` — `SYSTEM_PROMPT`, `getUserPrompt` (embedded from the source);
* the CLI orchestrator `run` and `buildConfig`, whose sources are not in the
  tree (only their test suites are): these are modelled from the specification,
  as marked on each definition.

JavaScript values flowing through the HTTP layer are modelled by a small JSON
datatype; property access `x?.f` is modelled as field lookup returning
`Option Json`, with `none` standing for `undefined`.
-/

namespace Aicommit

/-- JSON values, modelling the parsed bodies handled by `ollama.ts`. -/
inductive Json where
  | null : Json
  | str : String → Json
  | num : Int → Json
  | jbool : Bool → Json
  | arr : List Json → Json
  | obj : List (String × Json) → Json
deriving Repr

/-- Field lookup `v?.k`: `none` models JavaScript `undefined` (the value is
not an object, or the key is absent). -/
def Json.getField : Json → String → Option Json
  | .obj fields, key => fields.lookup key
  | _, _ => none

/-- JavaScript `String.prototype.trim`, embedded as a structurally recursive
function on the character list (whitespace taken as `Char.isWhitespace`). -/
def jsTrim (s : String) : String :=
  ⟨((s.data.dropWhile Char.isWhitespace).reverse.dropWhile Char.isWhitespace).reverse⟩

/-- `needle` is a prefix of `hay` (boolean, structurally recursive). -/
def prefixChars : List Char → List Char → Bool
  | [], _ => true
  | _ :: _, [] => false
  | a :: as, b :: bs => a == b && prefixChars as bs

/-- `needle` occurs contiguously inside `hay` (boolean, structurally
recursive on `hay`). -/
def containsChars (needle : List Char) : List Char → Bool
  | [] => prefixChars needle []
  | c :: rest => prefixChars needle (c :: rest) || containsChars needle rest

/-- The string `hay` mentions `needle` as a contiguous substring. -/
def strContains (hay needle : String) : Prop :=
  containsChars needle.data hay.data = true

instance (hay needle : String) : Decidable (strContains hay needle) :=
  inferInstanceAs (Decidable (_ = true))

/-- Case-insensitive variant: `hay`, lowercased character-wise, mentions
`needle`. -/
def strContainsLower (hay needle : String) : Prop :=
  containsChars needle.data (hay.data.map Char.toLower) = true

instance (hay needle : String) : Decidable (strContainsLower hay needle) :=
  inferInstanceAs (Decidable (_ = true))

/-- `errors.ts`: the generation-backend domain error. It carries only a
human-readable message. -/
structure OllamaError where
  message : String
deriving Repr, DecidableEq

/-- `prompts.ts`: the system instruction sent on every generation request. -/
def SYSTEM_PROMPT : String :=
  "You are a git commit message generator. Output ONLY the commit message line — no explanation, no description, no bullet points, no markdown, no preamble."

/-- `prompts.ts` `getUserPrompt`: the user instruction embedding the diff in a
delimiter block. -/
def getUserPrompt (diff : String) : String :=
  "Write a single git commit message for the diff below using conventional commits format (feat, fix, chore, refactor, docs, style, test, etc).\n\nRules:\n- Output ONLY the commit message, nothing else\n- One line, no period at the end\n- No explanation, no bullet points, no numbering\n- Example output: feat: add user authentication\n\n<diff>\n"
    ++ diff ++ "\n</diff>"

/-- `types.ts` `Config`: resolved endpoint URL, model identifier, optional
credential, debug flag. -/
structure Config where
  ollamaUrl : String
  model : String
  apiKey : Option String := none
  debug : Bool := false
deriving Repr, DecidableEq

/-- A value thrown by the JavaScript fetch call. `error m` is an `Error`
instance with message `m`; `other s` is any other thrown value, `s` being its
`String(err)` coercion. -/
inductive JsThrown where
  | error (message : String)
  | other (stringForm : String)
deriving Repr, DecidableEq

/-- `err instanceof Error ? err.message : String(err)` from `ollama.ts`. -/
def JsThrown.description : JsThrown → String
  | .error m => m
  | .other s => s

/-- The parts of a fetch `Response` that `ollama.ts` reads; `body` is the
value produced by `response.json()`. -/
structure HttpResponse where
  ok : Bool
  status : Nat
  statusText : String
  body : Json
deriving Repr

/-- Outcome of one fetch call: either the call threw, or it resolved to a
response. -/
inductive FetchOutcome where
  | thrown (t : JsThrown)
  | response (r : HttpResponse)
deriving Repr

/-- The JSON request body built by `generateCommitMessage`: model, a
system/user message pair, and `stream: false`. -/
structure RequestBody where
  model : String
  systemContent : String
  userContent : String
  stream : Bool
deriving Repr, DecidableEq

/-- The POST request handed to the fetch function. -/
structure Request where
  url : String
  headers : List (String × String)
  body : RequestBody
deriving Repr, DecidableEq

/-- The headers built by `generateCommitMessage`: `Content-Type` always;
`Authorization: Bearer <key>` exactly when `config.apiKey` is truthy (in
JavaScript an empty string is falsy, hence the emptiness test). -/
def requestHeaders (config : Config) : List (String × String) :=
  match config.apiKey with
  | some key =>
      if key = "" then [("Content-Type", "application/json")]
      else [("Content-Type", "application/json"), ("Authorization", "Bearer " ++ key)]
  | none => [("Content-Type", "application/json")]

/-- The request body built by `generateCommitMessage` from the diff and the
configuration. -/
def builtBody (diff : String) (config : Config) : RequestBody :=
  { model := config.model
    systemContent := SYSTEM_PROMPT
    userContent := getUserPrompt diff
    stream := false }

/-- The full POST request `generateCommitMessage` sends. -/
def builtRequest (diff : String) (config : Config) : Request :=
  { url := config.ollamaUrl
    headers := requestHeaders config
    body := builtBody diff config }

/-- `ollama.ts`: message of the `OllamaError` raised when the fetch call
throws. -/
def connectionErrorMessage (description : String) : String :=
  "Could not connect to Ollama: " ++ description
    ++ ". Make sure it is running with: ollama serve"

/-- `ollama.ts`: message of the `OllamaError` raised on a non-ok HTTP
response. -/
def httpErrorMessage (status : Nat) (statusText : String) : String :=
  "Ollama returned an error: " ++ Nat.repr status ++ " " ++ statusText

/-- `ollama.ts`: message of the `OllamaError` raised when
`data?.message?.content` is not a string. -/
def missingContentMessage : String :=
  "Unexpected response from Ollama: missing \"message.content\""

/-- `ollama.ts`: message of the `OllamaError` raised by `getLocalModels` when
`data?.models` is not an array. -/
def missingModelsMessage : String :=
  "Unexpected response from Ollama: missing \"models\" list"

/-- One `console.error` line written in debug mode. -/
inductive DebugLine where
  | requestBody (b : RequestBody)
  | rawResponse (j : Json)
deriving Repr

/-- Everything observable about one `generateCommitMessage` call: its
returned value or raised error, the debug lines written to the error stream,
and the request handed to the fetch function. -/
structure GenResult where
  result : Except OllamaError String
  logs : List DebugLine
  request : Request
deriving Repr

/-- `data?.message?.content` from `ollama.ts`. -/
def contentField (body : Json) : Option Json :=
  (body.getField "message").bind (fun m => m.getField "content")

/-- `ollama.ts` `generateCommitMessage`, embedded with the fetch function as
an explicit collaborator (as in the source, where it is an injectable
parameter). The returned record also records the debug log lines and the
request sent, which the source emits as side effects. -/
def generateCommitMessage (diff : String) (config : Config)
    (fetchFn : Request → FetchOutcome) : GenResult :=
  let body := builtBody diff config
  let logs0 : List DebugLine := if config.debug then [.requestBody body] else []
  let req := builtRequest diff config
  match fetchFn req with
  | .thrown t =>
      { result := .error ⟨connectionErrorMessage t.description⟩
        logs := logs0, request := req }
  | .response r =>
      if r.ok = false then
        { result := .error ⟨httpErrorMessage r.status r.statusText⟩
          logs := logs0, request := req }
      else
        let logs1 := logs0 ++ (if config.debug then [.rawResponse r.body] else [])
        match contentField r.body with
        | some (.str content) =>
            { result := .ok (jsTrim content), logs := logs1, request := req }
        | _ =>
            { result := .error ⟨missingContentMessage⟩, logs := logs1, request := req }

/-- `ollama.ts` `getLocalModels`: fetches the tags URL and returns the `name`
fields of the body's `models` array (each modelled as `Option Json`, `none`
standing for JavaScript `undefined`). -/
def getLocalModels (tagsUrl : String)
    (fetchFn : String → FetchOutcome) : Except OllamaError (List (Option Json)) :=
  match fetchFn tagsUrl with
  | .thrown t => .error ⟨connectionErrorMessage t.description⟩
  | .response r =>
      if r.ok = false then
        .error ⟨httpErrorMessage r.status r.statusText⟩
      else
        match r.body.getField "models" with
        | some (.arr models) => .ok (models.map (fun m => m.getField "name"))
        | _ => .error ⟨missingModelsMessage⟩

/-! ## The configuration collaborator

`config.ts` is not part of the source tree (only `config.test.ts` is), so the
constants and `buildConfig` are modelled from the specification. -/

/-- Modelled from the spec: the local generation endpoint (`config.ts` is
missing; the concrete URL value is taken from the test fixtures and is
irrelevant to the proved properties). -/
def LOCAL_OLLAMA_URL : String := "http://localhost:11434/api/generate"

/-- Modelled from the spec: the cloud generation endpoint (`config.ts` is
missing; the concrete value is irrelevant to the proved properties). -/
def CLOUD_OLLAMA_URL : String := "https://ollama.com/api/generate"

/-- Modelled from the spec: the default model in local mode (`config.ts` is
missing; the concrete value is irrelevant to the proved properties). -/
def DEFAULT_LOCAL_MODEL : String := "llama3.1"

/-- Modelled from the spec: the default model in cloud mode (`config.ts` is
missing; the concrete value is irrelevant to the proved properties). -/
def DEFAULT_CLOUD_MODEL : String := "cloud-default-model"

/-- Parsed command-line arguments, as exercised by `config.test.ts`. -/
structure Args where
  help : Bool := false
  version : Bool := false
  model : Option String := none
deriving Repr, DecidableEq

/-- The environment lookups `buildConfig` performs: the credential variable
(`none` when unset) and the debug flag. -/
structure Env where
  apiKey : Option String := none
  debug : Bool := false
deriving Repr, DecidableEq

/-- Modelled from the spec: `buildConfig` (`config.ts` is missing). Presence
of the credential variable selects the cloud endpoint and cloud default
model and records the credential; absence selects the local endpoint and
local default model with no credential; an explicit model override wins over
either default. Presence is modelled as a defined, non-empty value
(JavaScript truthiness, matching how `ollama.ts` itself tests the
credential). -/
def buildConfig (args : Args) (env : Env) : Config :=
  match env.apiKey with
  | some key =>
      if key = "" then
        { ollamaUrl := LOCAL_OLLAMA_URL
          model := args.model.getD DEFAULT_LOCAL_MODEL
          apiKey := none, debug := env.debug }
      else
        { ollamaUrl := CLOUD_OLLAMA_URL
          model := args.model.getD DEFAULT_CLOUD_MODEL
          apiKey := some key, debug := env.debug }
  | none =>
      { ollamaUrl := LOCAL_OLLAMA_URL
        model := args.model.getD DEFAULT_LOCAL_MODEL
        apiKey := none, debug := env.debug }

/-! ## The orchestrator

`cli.ts` (`run`) is not part of the source tree (only its test suite is), so
the orchestrator is modelled from the specification's state machine
`FetchDiff → GenerateMessage → AwaitDecision → {Commit | GenerateMessage}`,
with the collaborators injected and the operator's decisions supplied as a
script, as the spec's design notes prescribe. -/

/-- A value thrown by a collaborator, as the orchestrator classifies it:
a domain-specific error (`GitError` / `OllamaError`), surfaced by its message
verbatim, or any other thrown value, surfaced by its string coercion. -/
inductive ThrownToCore where
  | domain (message : String)
  | other (stringForm : String)
deriving Repr, DecidableEq

/-- The single error line the orchestrator writes for a thrown value:
the domain error's message verbatim, or the string form of any other value. -/
def ThrownToCore.surfaced : ThrownToCore → String
  | .domain m => m
  | .other s => s

/-- One operator intent collected by the decision prompt. -/
inductive Decision where
  | accept
  | edit
  | regenerate
deriving Repr, DecidableEq

/-- The collaborators the orchestrator sequences. `generate k` is the
outcome of the (k+1)-th message-generator invocation; `editMessage` maps the
current candidate to the operator's replacement text; `runCommit` returns the
commit subprocess's exit status. -/
structure Collaborators where
  getStagedDiff : Except ThrownToCore String
  generate : Nat → Except ThrownToCore String
  editMessage : String → String
  runCommit : String → Int

/-- Terminal outcome of one orchestrator run. `fatal code errLine` is a
process exit with the given status after writing one line to the error
stream; `commitFail code msg` is a commit invoked with `msg` whose nonzero
subprocess status `code` is propagated as the process exit status;
`ok msg` is a successful commit of `msg` (normal return, no process exit);
`outOfScript` is a model artefact: the scripted decision list ran out. -/
inductive Outcome where
  | fatal (code : Int) (errLine : String)
  | commitFail (code : Int) (committed : String)
  | ok (committed : String)
  | outOfScript
deriving Repr, DecidableEq

/-- The message the commit executor was invoked with, when the run reached
the commit step. -/
def Outcome.committed : Outcome → Option String
  | .fatal _ _ => none
  | .commitFail _ m => some m
  | .ok m => some m
  | .outOfScript => none

/-- Modelled from the spec: the `Commit` state. The commit executor runs with
the final candidate; a nonzero status is propagated as the process exit
status, a zero status ends the run successfully. -/
def doCommit (c : Collaborators) (msg : String) : Outcome :=
  let status := c.runCommit msg
  if status = 0 then .ok msg else .commitFail status msg

/-- Modelled from the spec: error message for an empty staged diff (wording
as in the spec's Scenario B and the CLI test suite). -/
def noStagedChangesMessage : String :=
  "No staged changes to commit. Stage your changes with: git add"

/-- Modelled from the spec: the `AwaitDecision`/`GenerateMessage` loop.
`cand` is the live CandidateMessage, `decisions` the scripted operator
intents, `calls` the number of generator invocations made so far (so the
next regeneration is invocation `calls`). Returns the outcome and the total
number of generator invocations. -/
def decideLoop (c : Collaborators) (cand : String) (decisions : List Decision)
    (calls : Nat) : Outcome × Nat :=
  match decisions with
  | [] => (.outOfScript, calls)
  | d :: rest =>
      match d with
      | .accept => (doCommit c cand, calls)
      | .edit => (doCommit c (c.editMessage cand), calls)
      | .regenerate =>
          match c.generate calls with
          | .error t => (.fatal 1 t.surfaced, calls + 1)
          | .ok m => decideLoop c m rest (calls + 1)

/-- Modelled from the spec: the orchestrator `run` (`cli.ts` is missing).
Fetches the diff once, fails fatally with status 1 on a thrown value or a
blank diff, generates the first candidate, then drives the decision loop.
Returns the outcome together with the number of generator invocations. -/
def run (c : Collaborators) (decisions : List Decision) : Outcome × Nat :=
  match c.getStagedDiff with
  | .error t => (.fatal 1 t.surfaced, 0)
  | .ok diff =>
      if jsTrim diff = "" then (.fatal 1 noStagedChangesMessage, 0)
      else
        match c.generate 0 with
        | .error t => (.fatal 1 t.surfaced, 1)
        | .ok m => decideLoop c m decisions 1

/-- The candidate after `m` further regenerations starting from candidate
`cand` with `j` generator calls already made, when every generator call
succeeds with `γ k` on its k-th invocation. -/
def candAfter (γ : Nat → String) (cand : String) (j : Nat) : Nat → String
  | 0 => cand
  | m + 1 => γ (j + m)

end Aicommit

/-! ## Substring lemmas -/

namespace Aicommit

theorem prefixChars_append (l r : List Char) : prefixChars l (l ++ r) = true := by
  induction l with
  | nil => rfl
  | cons a as ih => simp [prefixChars, ih]

theorem containsChars_of_prefixChars {n hay : List Char}
    (h : prefixChars n hay = true) : containsChars n hay = true := by
  cases hay with
  | nil => simpa [containsChars] using h
  | cons c rest => simp [containsChars, h]

theorem containsChars_append_left (a : List Char) {n b : List Char}
    (h : containsChars n b = true) : containsChars n (a ++ b) = true := by
  induction a with
  | nil => simpa using h
  | cons c cs ih => simp [containsChars, ih]

theorem containsChars_middle (a b c : List Char) :
    containsChars b (a ++ (b ++ c)) = true :=
  containsChars_append_left a (containsChars_of_prefixChars (prefixChars_append b c))

theorem containsChars_self (n : List Char) : containsChars n n = true :=
  containsChars_of_prefixChars (by simpa using prefixChars_append n [])

/-- The connection-failure message embeds the underlying cause description. -/
theorem connectionErrorMessage_mentions_description (d : String) :
    strContains (connectionErrorMessage d) d := by
  simp only [strContains, connectionErrorMessage, String.data_append, List.append_assoc]
  exact containsChars_middle _ _ _

/-- The connection-failure message embeds the remediation hint. -/
theorem connectionErrorMessage_mentions_hint (d : String) :
    strContains (connectionErrorMessage d) "ollama serve" := by
  simp only [strContains, connectionErrorMessage, String.data_append, List.append_assoc]
  exact containsChars_append_left _ (containsChars_append_left _ (by decide))

/-- The HTTP-failure message embeds the numeric status. -/
theorem httpErrorMessage_mentions_status (status : Nat) (st : String) :
    strContains (httpErrorMessage status st) (Nat.repr status) := by
  simp only [strContains, httpErrorMessage, String.data_append, List.append_assoc]
  exact containsChars_middle _ _ _

/-- The HTTP-failure message embeds the status text. -/
theorem httpErrorMessage_mentions_statusText (status : Nat) (st : String) :
    strContains (httpErrorMessage status st) st := by
  simp only [strContains, httpErrorMessage, String.data_append, List.append_assoc]
  exact containsChars_append_left _ (containsChars_append_left _
    (containsChars_append_left _ (containsChars_self _)))

/-! ## Orchestrator lemmas -/

/-- Unfolding `run` past a successful non-blank fetch and first generation. -/
theorem run_eq_decideLoop (c : Collaborators) (ds : List Decision) {diff : String}
    (hdiff : c.getStagedDiff = .ok diff) (hne : ¬ jsTrim diff = "")
    {m0 : String} (hg0 : c.generate 0 = .ok m0) :
    run c ds = decideLoop c m0 ds 1 := by
  simp [run, hdiff, hne, hg0]

/-- A block of `m` scripted regenerations advances the candidate to
`candAfter` and the call count by `m`, when every generator call succeeds. -/
theorem decideLoop_replicate_regen (c : Collaborators) (g : Nat → String)
    (hg : ∀ k, c.generate k = .ok (g k)) :
    ∀ (m j : Nat) (cand : String) (rest : List Decision),
      decideLoop c cand (List.replicate m .regenerate ++ rest) j
        = decideLoop c (candAfter g cand j m) rest (j + m) := by
  intro m
  induction m with
  | zero => intro j cand rest; simp [candAfter]
  | succ m ih =>
      intro j cand rest
      rw [List.replicate_succ, List.cons_append]
      simp only [decideLoop, hg j]
      rw [ih (j + 1) (g j) rest]
      have h1 : candAfter g (g j) (j + 1) m = candAfter g cand j (m + 1) := by
        cases m with
        | zero => simp [candAfter]
        | succ m2 =>
            simp only [candAfter]
            exact congrArg g (by omega)
      have h2 : j + 1 + m = j + (m + 1) := by omega
      rw [h1, h2]

/-- After the initial generation and `n` regenerations the live candidate is
the (n+1)-th generated message. -/
theorem candAfter_one (g : Nat → String) (n : Nat) :
    candAfter g (g 0) 1 n = g n := by
  cases n with
  | zero => rfl
  | succ n2 =>
      simp only [candAfter]
      exact congrArg g (by omega)

/-- `doCommit` always invokes the commit executor with the given message. -/
theorem doCommit_committed (c : Collaborators) (msg : String) :
    (doCommit c msg).committed = some msg := by
  by_cases h : c.runCommit msg = 0 <;> simp [doCommit, h, Outcome.committed]

end Aicommit

/-! ## Claim theorems: the orchestrator -/

namespace Aicommit

/-- C1: for every staged diff that is blank or whitespace-only after
trimming, the run terminates with exit status 1 and an error-stream message
mentioning "no staged changes" (case-insensitively), and the message
generator is never invoked (0 generator calls), regardless of backend
behavior. -/
theorem blank_diff_exits_one_without_generation (c : Collaborators)
    (ds : List Decision) {diff : String}
    (hdiff : c.getStagedDiff = .ok diff) (hblank : jsTrim diff = "") :
    run c ds = (.fatal 1 noStagedChangesMessage, 0)
      ∧ strContainsLower noStagedChangesMessage "no staged changes" := by
  refine ⟨?_, by decide⟩
  simp [run, hdiff, hblank]

theorem blank_diff_exits_one_without_generation_witness :
    run { getStagedDiff := .ok "   ", generate := fun _ => .ok "feat: x",
          editMessage := id, runCommit := fun _ => 0 } [.accept]
        = (.fatal 1 noStagedChangesMessage, 0)
      ∧ strContainsLower noStagedChangesMessage "no staged changes" :=
  blank_diff_exits_one_without_generation
    { getStagedDiff := .ok "   ", generate := fun _ => .ok "feat: x",
      editMessage := id, runCommit := fun _ => 0 } [.accept] rfl (by decide)

/-- C2: for every n ≥ 0, a decision sequence of n regenerate intents followed
by accept invokes the generator exactly n+1 times, each regeneration
wholesale-replacing the candidate, and the commit executor is invoked with
the last generated message. -/
theorem regenerate_n_then_accept (c : Collaborators) (g : Nat → String)
    (n : Nat) {diff : String}
    (hdiff : c.getStagedDiff = .ok diff) (hne : ¬ jsTrim diff = "")
    (hg : ∀ k, c.generate k = .ok (g k)) :
    run c (List.replicate n .regenerate ++ [.accept])
        = (doCommit c (g n), n + 1)
      ∧ (run c (List.replicate n .regenerate ++ [.accept])).1.committed
        = some (g n) := by
  have h : run c (List.replicate n .regenerate ++ [.accept])
      = (doCommit c (g n), n + 1) := by
    rw [run_eq_decideLoop c _ hdiff hne (hg 0),
        decideLoop_replicate_regen c g hg n 1 (g 0) [.accept],
        candAfter_one]
    simp [decideLoop, Nat.add_comm]
  exact ⟨h, by rw [h]; exact doCommit_committed c (g n)⟩

theorem regenerate_n_then_accept_witness :
    run { getStagedDiff := .ok "diff --git", generate := fun k => .ok (Nat.repr k),
          editMessage := id, runCommit := fun _ => 0 }
        (List.replicate 2 .regenerate ++ [.accept])
      = (doCommit { getStagedDiff := .ok "diff --git",
                    generate := fun k => .ok (Nat.repr k),
                    editMessage := id, runCommit := fun _ => 0 } (Nat.repr 2), 2 + 1) :=
  (regenerate_n_then_accept
    { getStagedDiff := .ok "diff --git", generate := fun k => .ok (Nat.repr k),
      editMessage := id, runCommit := fun _ => 0 }
    (fun k => Nat.repr k) 2 rfl (by decide) (fun _ => rfl)).1

/-- C3: for every run in which the operator chooses edit (after any number of
regenerations), the generator is not invoked again (still n+1 calls), the
edit collaborator is seeded with the current candidate, and the commit
executor is invoked with exactly the text the edit step returned. -/
theorem edit_bypasses_generator (c : Collaborators) (g : Nat → String)
    (n : Nat) {diff : String}
    (hdiff : c.getStagedDiff = .ok diff) (hne : ¬ jsTrim diff = "")
    (hg : ∀ k, c.generate k = .ok (g k)) :
    run c (List.replicate n .regenerate ++ [.edit])
        = (doCommit c (c.editMessage (g n)), n + 1)
      ∧ (run c (List.replicate n .regenerate ++ [.edit])).1.committed
        = some (c.editMessage (g n)) := by
  have h : run c (List.replicate n .regenerate ++ [.edit])
      = (doCommit c (c.editMessage (g n)), n + 1) := by
    rw [run_eq_decideLoop c _ hdiff hne (hg 0),
        decideLoop_replicate_regen c g hg n 1 (g 0) [.edit],
        candAfter_one]
    simp [decideLoop, Nat.add_comm]
  exact ⟨h, by rw [h]; exact doCommit_committed c (c.editMessage (g n))⟩

theorem edit_bypasses_generator_witness :
    run { getStagedDiff := .ok "diff --git", generate := fun _ => .ok "feat: add login",
          editMessage := fun m => m ++ "!", runCommit := fun _ => 0 }
        (List.replicate 0 .regenerate ++ [.edit])
      = (doCommit { getStagedDiff := .ok "diff --git",
                    generate := fun _ => .ok "feat: add login",
                    editMessage := fun m => m ++ "!", runCommit := fun _ => 0 }
          ("feat: add login" ++ "!"), 0 + 1) :=
  (edit_bypasses_generator
    { getStagedDiff := .ok "diff --git", generate := fun _ => .ok "feat: add login",
      editMessage := fun m => m ++ "!", runCommit := fun _ => 0 }
    (fun _ => "feat: add login") 0 rfl (by decide) (fun _ => rfl)).1

/-- C4: the exit status of the commit subprocess is propagated exactly: a
nonzero status terminates the run with that very status (not remapped to 1),
and a zero status ends the run successfully with no process exit. -/
theorem commit_status_propagated (c : Collaborators) {diff m0 : String}
    (hdiff : c.getStagedDiff = .ok diff) (hne : ¬ jsTrim diff = "")
    (hg0 : c.generate 0 = .ok m0) :
    (c.runCommit m0 ≠ 0 →
        run c [.accept] = (.commitFail (c.runCommit m0) m0, 1))
    ∧ (c.runCommit m0 = 0 → run c [.accept] = (.ok m0, 1)) := by
  rw [run_eq_decideLoop c [.accept] hdiff hne hg0]
  constructor
  · intro h
    simp [decideLoop, doCommit, h]
  · intro h
    simp [decideLoop, doCommit, h]

theorem commit_status_propagated_witness :
    run { getStagedDiff := .ok "diff --git", generate := fun _ => .ok "feat: x",
          editMessage := id, runCommit := fun _ => 128 } [.accept]
        = (.commitFail 128 "feat: x", 1)
    ∧ run { getStagedDiff := .ok "diff --git", generate := fun _ => .ok "feat: x",
            editMessage := id, runCommit := fun _ => 0 } [.accept]
        = (.ok "feat: x", 1) :=
  ⟨(commit_status_propagated
      { getStagedDiff := .ok "diff --git", generate := fun _ => .ok "feat: x",
        editMessage := id, runCommit := fun _ => 128 }
      rfl (by decide) rfl).1 (by decide),
   (commit_status_propagated
      { getStagedDiff := .ok "diff --git", generate := fun _ => .ok "feat: x",
        editMessage := id, runCommit := fun _ => 0 }
      rfl (by decide) rfl).2 rfl⟩

/-- C8 (counterexample to the claim as stated): the error line written for a
non-domain thrown value is not a generic message — it is the thrown value's
string form, and therefore differs between two runs that differ only in the
thrown value. -/
theorem nondomain_error_message_not_generic :
    run { getStagedDiff := .error (.other "spawn failure"),
          generate := fun _ => .ok "m", editMessage := id,
          runCommit := fun _ => 0 } []
        = (.fatal 1 "spawn failure", 0)
    ∧ run { getStagedDiff := .error (.other "some other failure"),
            generate := fun _ => .ok "m", editMessage := id,
            runCommit := fun _ => 0 } []
        = (.fatal 1 "some other failure", 0)
    ∧ (Outcome.fatal 1 "spawn failure", 0)
        ≠ ((Outcome.fatal 1 "some other failure", 0) : Outcome × Nat) :=
  ⟨rfl, rfl, by decide⟩

/-- C8 (amended): when the diff source throws a value that is not a
domain-specific error, the run terminates fatally with status 1, reporting
the thrown value coerced to its string form. -/
theorem nondomain_diff_error_exits_one (c : Collaborators)
    (ds : List Decision) {s : String}
    (h : c.getStagedDiff = .error (.other s)) :
    run c ds = (.fatal 1 s, 0) := by
  simp [run, h, ThrownToCore.surfaced]

theorem nondomain_diff_error_exits_one_witness :
    run { getStagedDiff := .error (.other "spawn failure"),
          generate := fun _ => .ok "m", editMessage := id,
          runCommit := fun _ => 0 } []
      = (.fatal 1 "spawn failure", 0) :=
  nondomain_diff_error_exits_one
    { getStagedDiff := .error (.other "spawn failure"),
      generate := fun _ => .ok "m", editMessage := id,
      runCommit := fun _ => 0 } [] rfl

end Aicommit

/-! ## Claim theorems: the message generator -/

namespace Aicommit

/-- C5: `generateCommitMessage` raises exactly one of three domain-error
kinds: on a thrown fetch, an `OllamaError` embedding the cause description
and the "ollama serve" hint; on a non-ok response, an `OllamaError` embedding
the numeric status and status text; on an ok response whose
`message.content` is not a string, an `OllamaError` signaling the unexpected
shape. -/
theorem generateCommitMessage_error_taxonomy (diff : String) (config : Config)
    (fetchFn : Request → FetchOutcome) :
    (∀ t, fetchFn (builtRequest diff config) = .thrown t →
        (generateCommitMessage diff config fetchFn).result
            = .error ⟨connectionErrorMessage t.description⟩
          ∧ strContains (connectionErrorMessage t.description) t.description
          ∧ strContains (connectionErrorMessage t.description) "ollama serve")
    ∧ (∀ r, fetchFn (builtRequest diff config) = .response r → r.ok = false →
        (generateCommitMessage diff config fetchFn).result
            = .error ⟨httpErrorMessage r.status r.statusText⟩
          ∧ strContains (httpErrorMessage r.status r.statusText) (Nat.repr r.status)
          ∧ strContains (httpErrorMessage r.status r.statusText) r.statusText)
    ∧ (∀ r, fetchFn (builtRequest diff config) = .response r → r.ok = true →
        (∀ s, contentField r.body ≠ some (.str s)) →
        (generateCommitMessage diff config fetchFn).result
          = .error ⟨missingContentMessage⟩) := by
  refine ⟨?_, ?_, ?_⟩
  · intro t h
    exact ⟨by simp [generateCommitMessage, h],
      connectionErrorMessage_mentions_description t.description,
      connectionErrorMessage_mentions_hint t.description⟩
  · intro r h hok
    exact ⟨by simp [generateCommitMessage, h, hok],
      httpErrorMessage_mentions_status r.status r.statusText,
      httpErrorMessage_mentions_statusText r.status r.statusText⟩
  · intro r h hok hns
    cases hcf : contentField r.body with
    | none => simp [generateCommitMessage, h, hok, hcf]
    | some j =>
        cases j with
        | str s => exact absurd hcf (hns s)
        | null => simp [generateCommitMessage, h, hok, hcf]
        | num v => simp [generateCommitMessage, h, hok, hcf]
        | jbool b => simp [generateCommitMessage, h, hok, hcf]
        | arr xs => simp [generateCommitMessage, h, hok, hcf]
        | obj fs => simp [generateCommitMessage, h, hok, hcf]

theorem generateCommitMessage_error_taxonomy_witness :
    (generateCommitMessage "d" { ollamaUrl := "u", model := "m" }
        (fun _ => .thrown (.error "ECONNREFUSED"))).result
      = .error ⟨connectionErrorMessage (JsThrown.error "ECONNREFUSED").description⟩ :=
  ((generateCommitMessage_error_taxonomy "d" { ollamaUrl := "u", model := "m" }
      (fun _ => .thrown (.error "ECONNREFUSED"))).1
    (.error "ECONNREFUSED") rfl).1

/-- C6 (counterexample to the claim as stated): a successful response whose
`message.content` is whitespace-only makes `generateCommitMessage` return
the blank string, so the returned value is not "never blank". -/
theorem trimmed_result_can_be_blank :
    (generateCommitMessage "d" { ollamaUrl := "u", model := "m" }
        (fun _ => .response { ok := true, status := 200, statusText := "OK",
                              body := .obj [("message",
                                .obj [("content", .str "   ")])] })).result
      = .ok "" := by
  rfl

/-- C6 (amended): for every successful backend response whose
`message.content` field holds a string, `generateCommitMessage` returns that
string with leading and trailing whitespace removed (which is blank exactly
when the field's value was whitespace-only). -/
theorem generateCommitMessage_success_trims (diff : String) (config : Config)
    (fetchFn : Request → FetchOutcome) (r : HttpResponse) (s : String)
    (h : fetchFn (builtRequest diff config) = .response r) (hok : r.ok = true)
    (hs : contentField r.body = some (.str s)) :
    (generateCommitMessage diff config fetchFn).result = .ok (jsTrim s) := by
  simp [generateCommitMessage, h, hok, hs]

theorem generateCommitMessage_success_trims_witness :
    (generateCommitMessage "d" { ollamaUrl := "u", model := "m" }
        (fun _ => .response { ok := true, status := 200, statusText := "OK",
                              body := .obj [("message",
                                .obj [("content", .str "  feat: add login  ")])] })).result
        = .ok (jsTrim "  feat: add login  ")
      ∧ jsTrim "  feat: add login  " = "feat: add login" :=
  ⟨generateCommitMessage_success_trims "d" { ollamaUrl := "u", model := "m" }
      (fun _ => .response { ok := true, status := 200, statusText := "OK",
                            body := .obj [("message",
                              .obj [("content", .str "  feat: add login  ")])] })
      { ok := true, status := 200, statusText := "OK",
        body := .obj [("message", .obj [("content", .str "  feat: add login  ")])] }
      "  feat: add login  " rfl rfl rfl,
    by decide⟩

end Aicommit

namespace Aicommit

/-- Whatever the fetch outcome, `generateCommitMessage` hands the fetch
function exactly the built request (URL, headers, body). -/
theorem generateCommitMessage_request (diff : String) (config : Config)
    (fetchFn : Request → FetchOutcome) :
    (generateCommitMessage diff config fetchFn).request
      = builtRequest diff config := by
  simp only [generateCommitMessage]
  cases h : fetchFn (builtRequest diff config) with
  | thrown t => simp [h]
  | response r =>
      simp only [h]
      by_cases hok : r.ok = false
      · simp [hok]
      · simp only [hok, if_false]
        cases hcf : contentField r.body with
        | none => simp [hcf]
        | some j => cases j <;> simp [hcf]

/-- C7: presence of the credential variable selects the cloud endpoint and
cloud default model and every generation request carries the
`Authorization: Bearer` header with the credential; absence selects the
local endpoint and local default model with no `Authorization` header; an
explicit model override wins over either default. -/
theorem credential_selects_backend (args : Args) (env : Env) :
    (∀ key, env.apiKey = some key → key ≠ "" →
        (buildConfig args env).ollamaUrl = CLOUD_OLLAMA_URL
      ∧ (args.model = none → (buildConfig args env).model = DEFAULT_CLOUD_MODEL)
      ∧ (∀ diff fetchFn,
          ((generateCommitMessage diff (buildConfig args env) fetchFn).request).headers.lookup
              "Authorization"
            = some ("Bearer " ++ key)))
    ∧ (env.apiKey = none →
        (buildConfig args env).ollamaUrl = LOCAL_OLLAMA_URL
      ∧ (args.model = none → (buildConfig args env).model = DEFAULT_LOCAL_MODEL)
      ∧ (∀ diff fetchFn,
          ((generateCommitMessage diff (buildConfig args env) fetchFn).request).headers.lookup
              "Authorization"
            = none))
    ∧ (∀ m, args.model = some m → (buildConfig args env).model = m) := by
  refine ⟨?_, ?_, ?_⟩
  · intro key hk hne
    refine ⟨by simp [buildConfig, hk, hne], ?_, ?_⟩
    · intro hm
      simp [buildConfig, hk, hne, hm]
    · intro diff fetchFn
      rw [generateCommitMessage_request]
      simp [builtRequest, requestHeaders, buildConfig, hk, hne, List.lookup]
  · intro hk
    refine ⟨by simp [buildConfig, hk], ?_, ?_⟩
    · intro hm
      simp [buildConfig, hk, hm]
    · intro diff fetchFn
      rw [generateCommitMessage_request]
      simp [builtRequest, requestHeaders, buildConfig, hk, List.lookup]
  · intro m hm
    cases hk : env.apiKey with
    | none => simp [buildConfig, hk, hm]
    | some key =>
        by_cases hne : key = "" <;> simp [buildConfig, hk, hne, hm]

theorem credential_selects_backend_witness :
    (buildConfig {} { apiKey := some "sk-test" }).ollamaUrl = CLOUD_OLLAMA_URL
    ∧ ((generateCommitMessage "d" (buildConfig {} { apiKey := some "sk-test" })
          (fun _ => .thrown (.other "x"))).request).headers.lookup "Authorization"
        = some ("Bearer " ++ "sk-test")
    ∧ (buildConfig { model := some "mistral" } {}).model = "mistral" :=
  ⟨((credential_selects_backend {} { apiKey := some "sk-test" }).1
      "sk-test" rfl (by decide)).1,
   ((credential_selects_backend {} { apiKey := some "sk-test" }).1
      "sk-test" rfl (by decide)).2.2 "d" (fun _ => .thrown (.other "x")),
   (credential_selects_backend { model := some "mistral" } {}).2.2 "mistral" rfl⟩

end Aicommit

namespace Aicommit

/-- C9 (counterexample to the claim as stated): on a generation call whose
fetch throws, enabling the debug flag writes exactly one extra log line (the
request body), not two. -/
theorem debug_two_lines_counterexample :
    (generateCommitMessage "d" { ollamaUrl := "u", model := "m", debug := true }
        (fun _ => .thrown (.error "ECONNREFUSED"))).logs.length = 1
    ∧ (generateCommitMessage "d" { ollamaUrl := "u", model := "m", debug := false }
        (fun _ => .thrown (.error "ECONNREFUSED"))).logs.length = 0 :=
  ⟨rfl, rfl⟩

/-- C9 (amended): the debug flag never alters the function's result, and with
debug off no log line is written; with debug on, exactly two extra lines
(request body, then raw response body) are written when an ok response is
received, and exactly one (the request body) when the fetch throws or the
response is non-ok. -/
theorem debug_flag_noninterference (diff : String) (config : Config)
    (fetchFn : Request → FetchOutcome) :
    ((generateCommitMessage diff { config with debug := true } fetchFn).result
        = (generateCommitMessage diff { config with debug := false } fetchFn).result)
    ∧ (generateCommitMessage diff { config with debug := false } fetchFn).logs = []
    ∧ (∀ t, fetchFn (builtRequest diff config) = .thrown t →
        (generateCommitMessage diff { config with debug := true } fetchFn).logs
          = [.requestBody (builtBody diff config)])
    ∧ (∀ r, fetchFn (builtRequest diff config) = .response r → r.ok = false →
        (generateCommitMessage diff { config with debug := true } fetchFn).logs
          = [.requestBody (builtBody diff config)])
    ∧ (∀ r, fetchFn (builtRequest diff config) = .response r → r.ok = true →
        (generateCommitMessage diff { config with debug := true } fetchFn).logs
          = [.requestBody (builtBody diff config), .rawResponse r.body]) := by
  have hreq : ∀ b : Bool,
      builtRequest diff { config with debug := b } = builtRequest diff config :=
    fun _ => rfl
  have hbody : ∀ b : Bool,
      builtBody diff { config with debug := b } = builtBody diff config :=
    fun _ => rfl
  refine ⟨?_, ?_, ?_, ?_, ?_⟩
  · simp only [generateCommitMessage, hreq, hbody]
    cases h : fetchFn (builtRequest diff config) with
    | thrown t => simp
    | response r =>
        by_cases hok : r.ok = false
        · simp [hok]
        · simp only [hok, if_false]
          cases hcf : contentField r.body with
          | none => simp [hcf]
          | some j => cases j <;> simp [hcf]
  · simp only [generateCommitMessage, hreq, hbody]
    cases h : fetchFn (builtRequest diff config) with
    | thrown t => simp
    | response r =>
        by_cases hok : r.ok = false
        · simp [hok]
        · simp only [hok, if_false]
          cases hcf : contentField r.body with
          | none => simp [hcf]
          | some j => cases j <;> simp [hcf]
  · intro t h
    simp [generateCommitMessage, hreq, hbody, h]
  · intro r h hok
    simp [generateCommitMessage, hreq, hbody, h, hok]
  · intro r h hok
    simp only [generateCommitMessage, hreq, hbody, h]
    simp only [hok]
    cases hcf : contentField r.body with
    | none => simp [hcf]
    | some j => cases j <;> simp [hcf]

theorem debug_flag_noninterference_witness :
    ((generateCommitMessage "d"
        { ollamaUrl := "u", model := "m", debug := true }
        (fun _ => .thrown (.error "ECONNREFUSED"))).result
      = (generateCommitMessage "d"
          { ollamaUrl := "u", model := "m", debug := false }
          (fun _ => .thrown (.error "ECONNREFUSED"))).result)
    ∧ (generateCommitMessage "d"
        { ollamaUrl := "u", model := "m", debug := true }
        (fun _ => .thrown (.error "ECONNREFUSED"))).logs
      = [.requestBody (builtBody "d" { ollamaUrl := "u", model := "m" })] :=
  ⟨(debug_flag_noninterference "d" { ollamaUrl := "u", model := "m" }
      (fun _ => .thrown (.error "ECONNREFUSED"))).1,
   (debug_flag_noninterference "d" { ollamaUrl := "u", model := "m" }
      (fun _ => .thrown (.error "ECONNREFUSED"))).2.2.1
     (.error "ECONNREFUSED") rfl⟩

/-- C10: `getLocalModels` either returns the `name` fields of the body's
`models` array (ok response with an array-valued `models`), or raises an
`OllamaError` of the same three kinds as generation: connection failure with
the "ollama serve" hint, non-ok HTTP status embedding status and status
text, or a missing `models` list. -/
theorem getLocalModels_taxonomy (tagsUrl : String)
    (fetchFn : String → FetchOutcome) :
    (∀ t, fetchFn tagsUrl = .thrown t →
        getLocalModels tagsUrl fetchFn
            = .error ⟨connectionErrorMessage t.description⟩
          ∧ strContains (connectionErrorMessage t.description) "ollama serve")
    ∧ (∀ r, fetchFn tagsUrl = .response r → r.ok = false →
        getLocalModels tagsUrl fetchFn
            = .error ⟨httpErrorMessage r.status r.statusText⟩
          ∧ strContains (httpErrorMessage r.status r.statusText) (Nat.repr r.status)
          ∧ strContains (httpErrorMessage r.status r.statusText) r.statusText)
    ∧ (∀ r models, fetchFn tagsUrl = .response r → r.ok = true →
        r.body.getField "models" = some (.arr models) →
        getLocalModels tagsUrl fetchFn
          = .ok (models.map (fun m => m.getField "name")))
    ∧ (∀ r, fetchFn tagsUrl = .response r → r.ok = true →
        (∀ models, r.body.getField "models" ≠ some (.arr models)) →
        getLocalModels tagsUrl fetchFn = .error ⟨missingModelsMessage⟩) := by
  refine ⟨?_, ?_, ?_, ?_⟩
  · intro t h
    exact ⟨by simp [getLocalModels, h],
      connectionErrorMessage_mentions_hint t.description⟩
  · intro r h hok
    exact ⟨by simp [getLocalModels, h, hok],
      httpErrorMessage_mentions_status r.status r.statusText,
      httpErrorMessage_mentions_statusText r.status r.statusText⟩
  · intro r models h hok hm
    simp [getLocalModels, h, hok, hm]
  · intro r h hok hnm
    cases hm : r.body.getField "models" with
    | none => simp [getLocalModels, h, hok, hm]
    | some j =>
        cases j with
        | arr xs => exact absurd hm (hnm xs)
        | null => simp [getLocalModels, h, hok, hm]
        | str s => simp [getLocalModels, h, hok, hm]
        | num v => simp [getLocalModels, h, hok, hm]
        | jbool b => simp [getLocalModels, h, hok, hm]
        | obj fs => simp [getLocalModels, h, hok, hm]

theorem getLocalModels_taxonomy_witness :
    getLocalModels "http://localhost:11434/api/tags"
        (fun _ => .response { ok := true, status := 200, statusText := "OK",
                              body := .obj [("models",
                                .arr [.obj [("name", .str "llama3.1")],
                                      .obj [("name", .str "mistral")]])] })
      = .ok [some (.str "llama3.1"), some (.str "mistral")] :=
  (getLocalModels_taxonomy "http://localhost:11434/api/tags"
      (fun _ => .response { ok := true, status := 200, statusText := "OK",
                            body := .obj [("models",
                              .arr [.obj [("name", .str "llama3.1")],
                                    .obj [("name", .str "mistral")]])] })).2.2.1
    { ok := true, status := 200, statusText := "OK",
      body := .obj [("models",
        .arr [.obj [("name", .str "llama3.1")], .obj [("name", .str "mistral")]])] }
    [.obj [("name", .str "llama3.1")], .obj [("name", .str "mistral")]]
    rfl rfl rfl

end Aicommit
